import Mathlib

/-!
Shallow embedding of gesture_launcher.py: the debounce/stability state
machine, the cooldown gate, the gesture event emitter (the per-frame body of
the main loop) and the action dispatcher (perform_mapped_action together with
its executable-resolution helpers).  External capabilities (os.path, shutil,
subprocess, webbrowser, pyttsx3) are modelled by an explicit environment
record: each capability call is a pure function of the environment, and a
call that can raise in Python is given the type Except Unit _ whose error
value models the raised exception.  finger counts are naturals.  Times (values of time.time) are modelled as
integers: every statement below about times uses only their ordering, their
difference and the constant 3 = COOLDOWN_SECONDS, so nothing depends on the
density of the time domain.
-/

namespace GestureLauncher

/-- Environment modelling the external world seen by the dispatcher:
sys.platform, os.path.isabs/os.path.exists (combined, as the code only ever
uses the conjunction), shutil.which, whether subprocess.Popen raises for a
given argv, whether webbrowser.open raises, and whether pyttsx3 initialised
at startup (VOICE_AVAILABLE). -/
structure Env where
  platform : String
  isAbsExists : String → Bool
  which : String → Option String
  popenRaises : List String → Bool
  browserRaises : Bool
  voiceAvailable : Bool

/-- Python str.startswith, modelled on the character lists of the strings
(the bytewise core String.startsWith does not reduce definitionally). -/
def pyStartsWith (s pre : String) : Bool :=
  pre.data.isPrefixOf s.data

/-- subprocess.Popen(argv, ...): raises iff the environment says so. -/
def subprocess_Popen (env : Env) (argv : List String) : Except Unit Unit :=
  if env.popenRaises argv then Except.error () else Except.ok ()

/-- webbrowser.open(url): raises iff the environment says so. -/
def webbrowser_open (env : Env) (_url : String) : Except Unit Unit :=
  if env.browserRaises then Except.error () else Except.ok ()

/-- speak(text) from gesture_launcher.py: returns immediately when
VOICE_AVAILABLE is false, and wraps the tts calls in try/except with a bare
pass, so it never raises and has no observable effect on the caller. -/
def speak (_env : Env) (_text : String) : Unit := ()

/-- Python truthiness of an optional string parameter: None and the empty
string are falsy, every other string is truthy. -/
def truthy : Option String → Bool
  | none => false
  | some s => s ≠ ""

/-- STABLE_FRAMES = 6. -/
def STABLE_FRAMES : Nat := 6

/-- COOLDOWN_SECONDS = 3.0. -/
def COOLDOWN_SECONDS : ℤ := 3

/-- PROGRAM_LOOKUP from gesture_launcher.py, as an association list keyed by
program name; each entry is the list of (platform key, candidate list) pairs
in the insertion order of the Python dict. -/
def PROGRAM_LOOKUP : List (String × List (String × List String)) :=
  [("chrome",
     [("win32", ["chrome",
                 "C:\\Program Files\\Google\\Chrome\\Application\\chrome.exe",
                 "C:\\Program Files (x86)\\Google\\Chrome\\Application\\chrome.exe"]),
      ("darwin", ["/Applications/Google Chrome.app/Contents/MacOS/Google Chrome"]),
      ("linux", ["google-chrome", "chrome", "chromium", "chromium-browser"])]),
   ("code",
     [("win32", ["code"]),
      ("darwin", ["code",
                  "/Applications/Visual Studio Code.app/Contents/Resources/app/bin/code"]),
      ("linux", ["code"])]),
   ("explorer",
     [("win32", ["explorer"]),
      ("darwin", ["open"]),
      ("linux", ["xdg-open", "nautilus", "nemo"])])]

/-- APP_MAPPING from gesture_launcher.py; the entry for 4 depends on
sys.platform exactly as in the source. -/
def APP_MAPPING (platform : String) : List (Nat × (String × Option String)) :=
  [(0, ("noop", none)),
   (1, ("open_url", some "https://www.youtube.com/")),
   (2, ("open_program", some "chrome")),
   (3, ("open_program", some "code")),
   (4, ("open_program",
        some (if pyStartsWith platform "win" then "explorer" else "nautilus"))),
   (5, ("open_program", none))]

/-- APP_MAPPING.get(finger_count, ("noop", None)). -/
def mappingFor (platform : String) (finger_count : Nat) : String × Option String :=
  ((APP_MAPPING platform).lookup finger_count).getD ("noop", none)

/-- The body of both candidate loops in find_executable_for_key: a candidate
resolves to itself when it is an existing absolute path, otherwise to
whatever shutil.which finds for it. -/
def resolveCandidate (env : Env) (c : String) : Option String :=
  if env.isAbsExists c then some c else env.which c

/-- Scan a candidate list, returning the first resolution. -/
def scanCandidates (env : Env) : List String → Option String
  | [] => none
  | c :: cs =>
    match resolveCandidate env c with
    | some r => some r
    | none => scanCandidates env cs

/-- First loop of find_executable_for_key: only groups whose platform key is
a prefix of sys.platform are scanned. -/
def scanPlatformGroups (env : Env) : List (String × List String) → Option String
  | [] => none
  | (plat_key, candidates) :: rest =>
    if pyStartsWith env.platform plat_key then
      match scanCandidates env candidates with
      | some r => some r
      | none => scanPlatformGroups env rest
    else scanPlatformGroups env rest

/-- Second loop of find_executable_for_key: every group is scanned. -/
def scanAllGroups (env : Env) : List (String × List String) → Option String
  | [] => none
  | (_, candidates) :: rest =>
    match scanCandidates env candidates with
    | some r => some r
    | none => scanAllGroups env rest

/-- PROGRAM_LOOKUP.get(key, \x7b\x7d). -/
def lookupOf (key : String) : List (String × List String) :=
  (PROGRAM_LOOKUP.lookup key).getD []

/-- find_executable_for_key from gesture_launcher.py: platform-matching
groups first, then all groups as fallback. -/
def find_executable_for_key (env : Env) (key : String) : Option String :=
  match scanPlatformGroups env (lookupOf key) with
  | some r => some r
  | none => scanAllGroups env (lookupOf key)

/-- launch_program_by_key from gesture_launcher.py.  The result is an
Option Bool because on a platform that is neither darwin nor linux, a raised
launch makes the Python function fall off its end and return None.  All
Popen calls are inside try/except, so this function never raises. -/
def launch_program_by_key (env : Env) (key : String) : Option Bool :=
  match find_executable_for_key env key with
  | none => some false
  | some cmd =>
    match subprocess_Popen env [cmd] with
    | Except.ok _ => some true
    | Except.error _ =>
      if env.platform = "darwin" then
        match subprocess_Popen env ["open", "-a", key] with
        | Except.ok _ => some true
        | Except.error _ => some false
      else if pyStartsWith env.platform "linux" then
        match subprocess_Popen env [cmd] with
        | Except.ok _ => some true
        | Except.error _ => some false
      else none

/-- The open_program branch of perform_mapped_action (lines 159-183): an
existing absolute path is launched directly; otherwise shutil.which is
tried, and a raised launch of the which result falls through (without
returning) to launch_program_by_key. -/
def open_program_dispatch (env : Env) (p : String) : Except Unit (Option Bool) :=
  if env.isAbsExists p then
    match subprocess_Popen env [p] with
    | Except.ok _ => Except.ok (some true)
    | Except.error _ => Except.ok (some false)
  else
    match env.which p with
    | some exe =>
      match subprocess_Popen env [exe] with
      | Except.ok _ => Except.ok (some true)
      | Except.error _ => Except.ok (launch_program_by_key env p)
    | none => Except.ok (launch_program_by_key env p)

/-- perform_mapped_action from gesture_launcher.py.  The outer Except
records a Python exception escaping the function: only the open_url branch
calls a capability outside any try/except.  The inner Option Bool is the
Python return value (None, True or False). -/
def perform_mapped_action (env : Env) (m : String × Option String) :
    Except Unit (Option Bool) :=
  let action := m.1
  let param := m.2
  if action = "noop" then Except.ok (some false)
  else if action = "open_url" ∧ truthy param = true then
    match webbrowser_open env (param.getD "") with
    | Except.error e => Except.error e
    | Except.ok _ => Except.ok (some true)
  else if action = "open_program" then
    match param with
    | none => Except.ok (some false)
    | some p => open_program_dispatch env p
  else if action = "say_text" ∧ truthy param = true then
    let _ := speak env (param.getD "")
    Except.ok (some true)
  else Except.ok (some false)

/-- FINGER_TIPS = [4, 8, 12, 16, 20] (thumb, index, middle, ring, pinky). -/
def FINGER_TIPS : List Nat := [4, 8, 12, 16, 20]

/-- Line 205 of gesture_launcher.py: the landmark list is converted to a
plain list of (x, y) pairs OUTSIDE any try/except, so a malformed landmark
item (modelled as none) raises out of count_fingers_from_landmarks. -/
def landmarksToPairs : List (Option (ℚ × ℚ)) → Except Unit (List (ℚ × ℚ))
  | [] => Except.ok []
  | none :: _ => Except.error ()
  | some a :: rest =>
    match landmarksToPairs rest with
    | Except.error e => Except.error e
    | Except.ok r => Except.ok (a :: r)

/-- Thumb classification (lines 211-225): indices 4 (tip) and 3 (inner IP
joint); an index out of range is an IndexError caught by the surrounding
try, giving 0.  A None hand label falls back to the Right rule; the Right
rule is tip x strictly less than IP x, the rule for any other label is the
reversed strict inequality. -/
def thumbBit (lm : List (ℚ × ℚ)) (hand_label : Option String) : Nat :=
  match lm[4]?, lm[3]? with
  | some tip, some ip =>
    let label := hand_label.getD "Right"
    if label = "Right" then (if tip.1 < ip.1 then 1 else 0)
    else (if tip.1 > ip.1 then 1 else 0)
  | _, _ => 0

/-- One iteration of the loop over the other four fingers (lines 228-234):
tip at tipIdx, pip joint two indices before; tip y strictly below pip y
(numerically smaller) means extended; an IndexError gives 0. -/
def fingerBit (lm : List (ℚ × ℚ)) (tipIdx : Nat) : Nat :=
  match lm[tipIdx]?, lm[tipIdx - 2]? with
  | some tip, some pip => if tip.2 < pip.2 then 1 else 0
  | _, _ => 0

/-- count_fingers_from_landmarks from gesture_launcher.py.  Input landmarks
are optional pairs (none models a malformed landmark item, whose attribute
access raises at the line-205 conversion); the result is the pair
(sum of the bits, the 5-element 0/1 vector). -/
def count_fingers_from_landmarks (hand_landmarks : List (Option (ℚ × ℚ)))
    (hand_label : Option String) : Except Unit (Nat × List Nat) :=
  match landmarksToPairs hand_landmarks with
  | Except.error e => Except.error e
  | Except.ok lm =>
    let fingers := thumbBit lm hand_label :: (FINGER_TIPS.drop 1).map (fingerBit lm)
    Except.ok (fingers.sum, fingers)

/-- The mutable state of the main loop (lines 252-254):
last_trigger_time = 0.0, stable_counter = 0, last_count = None initially. -/
structure LoopState where
  last_trigger_time : ℤ
  stable_counter : Nat
  last_count : Option Nat
  deriving DecidableEq, Repr

/-- The initial value of last_trigger_time (line 252). -/
def INITIAL_LAST_TRIGGER_TIME : ℤ := 0

/-- The initial loop state. -/
def initialLoopState : LoopState :=
  { last_trigger_time := INITIAL_LAST_TRIGGER_TIME, stable_counter := 0,
    last_count := none }

/-- The cooldown gate of line 298: (now - last_trigger_time) >=
COOLDOWN_SECONDS. -/
def cooldownAllow (last_trigger_time now : ℤ) : Bool :=
  decide (now - last_trigger_time ≥ COOLDOWN_SECONDS)

/-- The debounce transition of lines 290-294 (hand present) and lines
315-318 (no hand), on the state (last_count, stable_counter). -/
def debounceStep (st : Option Nat × Nat) (obs : Option Nat) : Option Nat × Nat :=
  match obs with
  | none => (none, 0)
  | some finger_count =>
    if some finger_count = st.1 then (st.1, st.2 + 1) else (some finger_count, 1)

/-- A dispatch attempt made by a tick: the triggering count, the mapping
looked up for it, and the value returned by perform_mapped_action (or the
exception it raised). -/
structure DispatchEv where
  count : Nat
  mapping : String × Option String
  acted : Except Unit (Option Bool)

/-- One iteration of the main loop of gesture_launcher.py (lines 289-318),
restricted to its state effects: the debounce update, the trigger condition
(line 298), the mapping lookup and dispatch (lines 300-301) and the
conditional last_trigger_time update (lines 302-303).  obs is the observed
finger count for the tick (none when no hand is detected), now is
time.time().  The first component is the state after the tick, or the
exception if perform_mapped_action raised (which would crash the loop); the
second lists the dispatch attempts the tick made (always zero or one). -/
def mainTick (env : Env) (s : LoopState) (obs : Option Nat) (now : ℤ) :
    Except Unit LoopState × List DispatchEv :=
  match obs with
  | none =>
    (Except.ok { s with stable_counter := 0, last_count := none }, [])
  | some finger_count =>
    let st := debounceStep (s.last_count, s.stable_counter) (some finger_count)
    let last_count := st.1
    let stable_counter := st.2
    if stable_counter ≥ STABLE_FRAMES ∧ cooldownAllow s.last_trigger_time now = true then
      let mapping := mappingFor env.platform finger_count
      match perform_mapped_action env mapping with
      | Except.error e =>
        (Except.error e, [⟨finger_count, mapping, Except.error e⟩])
      | Except.ok acted =>
        (Except.ok
          { last_trigger_time :=
              if acted = some true then now else s.last_trigger_time,
            stable_counter := stable_counter, last_count := last_count },
         [⟨finger_count, mapping, Except.ok acted⟩])
    else
      (Except.ok { s with stable_counter := stable_counter, last_count := last_count }, [])

/-- The candidate strings of every group of a lookup entry, in order. -/
def allCandidates : List (String × List String) → List String
  | [] => []
  | (_, candidates) :: rest => candidates ++ allCandidates rest

/-- The candidate strings of the platform-matching groups of a lookup entry,
in order. -/
def platformCandidates (env : Env) : List (String × List String) → List String
  | [] => []
  | (plat_key, candidates) :: rest =>
    if pyStartsWith env.platform plat_key then
      candidates ++ platformCandidates env rest
    else platformCandidates env rest

/-- Some step of the open_program resolution chain located an executable:
the parameter as an existing absolute path, shutil.which on the parameter,
or find_executable_for_key. -/
def executableWasFound (env : Env) (p : String) : Prop :=
  env.isAbsExists p = true ∨ (env.which p).isSome = true ∨
    (find_executable_for_key env p).isSome = true

/-- A concrete environment for witnesses: linux, nothing on disk or on PATH,
no capability faults. -/
def env0 : Env :=
  { platform := "linux", isAbsExists := fun _ => false, which := fun _ => none,
    popenRaises := fun _ => false, browserRaises := false, voiceAvailable := true }

/-- env0 with a faulting webbrowser.open. -/
def envBrowserFault : Env := { env0 with browserRaises := true }

/-- env0 with pyttsx3 unavailable (its import or init raised at startup). -/
def envNoVoice : Env := { env0 with voiceAvailable := false }

/-! Helper lemmas shared by the claim theorems. -/

/-- Any mapping whose action is noop is dispatched to an immediate False. -/
theorem perform_noop (env : Env) (m : String × Option String) (h : m.1 = "noop") :
    perform_mapped_action env m = Except.ok (some false) := by
  simp [perform_mapped_action, h]

/-- Feeding a run of identical counts to the debounce step increments the
counter once per tick when the run's count is already the latched one. -/
theorem debounceStep_run (c : Nat) :
    ∀ (k : Nat) (st : Option Nat × Nat), st.1 = some c →
      (List.replicate k (some c)).foldl debounceStep st = (some c, st.2 + k) := by
  intro k
  induction k with
  | zero =>
    intro st h
    cases st with
    | mk a b => simp at h; simp [h]
  | succ k ih =>
    intro st h
    rw [List.replicate_succ, List.foldl_cons]
    have hstep : debounceStep st (some c) = (some c, st.2 + 1) := by
      simp [debounceStep, h]
    rw [hstep, ih (some c, st.2 + 1) rfl]
    simp
    omega

/-- C2: the debounce state machine maps None to (None, 0), increments the
counter on a repeated count, latches a differing count with counter 1;
consequently after a run of k identical non-None counts that does not extend
an equal preceding run, the counter is exactly k, and with STABLE_FRAMES = 6
the 5th identical tick from the reset state is below the threshold while the
6th reaches it. -/
theorem C2_debounce_transitions (st : Option Nat × Nat) (c k : Nat) :
    debounceStep st none = (none, 0) ∧
    (st.1 = some c → debounceStep st (some c) = (st.1, st.2 + 1)) ∧
    (st.1 ≠ some c → debounceStep st (some c) = (some c, 1)) ∧
    (st.1 ≠ some c →
      (List.replicate (k + 1) (some c)).foldl debounceStep st = (some c, k + 1)) ∧
    ((List.replicate 5 (some 3)).foldl debounceStep ((none : Option Nat), 0)).2 <
      STABLE_FRAMES ∧
    STABLE_FRAMES ≤ ((List.replicate 6 (some 3)).foldl debounceStep ((none : Option Nat), 0)).2 := by
  refine ⟨rfl, ?_, ?_, ?_, by decide, by decide⟩
  · intro h
    simp [debounceStep, h]
  · intro h
    simp only [debounceStep]
    rw [if_neg (fun hc => h hc.symm)]
  · intro h
    rw [List.replicate_succ, List.foldl_cons]
    have hstep : debounceStep st (some c) = (some c, 1) := by
      simp only [debounceStep]
      rw [if_neg (fun hc => h hc.symm)]
    rw [hstep, debounceStep_run c k (some c, 1) rfl]
    simp [Nat.add_comm]

/-- C2 witness: from the reset state, six ticks of the count 3 latch the
count with a counter of exactly 6. -/
theorem C2_debounce_transitions_witness :
    (List.replicate 6 (some 3)).foldl debounceStep ((none : Option Nat), 0) = (some 3, 6) :=
  (C2_debounce_transitions (none, 0) 3 5).2.2.2.1 (by decide)

/-- The open_program branch wraps every launch in try/except, so it always
returns (a Python value) rather than raising. -/
theorem open_program_dispatch_ok (env : Env) (p : String) :
    ∃ r, open_program_dispatch env p = Except.ok r := by
  simp only [open_program_dispatch]
  split
  · split <;> exact ⟨_, rfl⟩
  · split
    · split <;> exact ⟨_, rfl⟩
    · exact ⟨_, rfl⟩

/-- Scanning a concatenation scans the first list, then the second. -/
theorem scanCandidates_append (env : Env) (a b : List String) :
    scanCandidates env (a ++ b) =
      match scanCandidates env a with
      | some r => some r
      | none => scanCandidates env b := by
  induction a with
  | nil => simp [scanCandidates]
  | cons c cs ih =>
    simp only [List.cons_append, scanCandidates]
    cases resolveCandidate env c with
    | some r => rfl
    | none => exact ih

/-- The first loop of find_executable_for_key scans exactly the candidates
of the platform-matching groups, in order. -/
theorem scanPlatformGroups_eq (env : Env) (groups : List (String × List String)) :
    scanPlatformGroups env groups = scanCandidates env (platformCandidates env groups) := by
  induction groups with
  | nil => rfl
  | cons g rest ih =>
    cases g with
    | mk plat_key candidates =>
      simp only [scanPlatformGroups, platformCandidates]
      by_cases hp : pyStartsWith env.platform plat_key = true
      · rw [if_pos hp, if_pos hp, scanCandidates_append]
        cases scanCandidates env candidates with
        | some r => rfl
        | none => exact ih
      · rw [if_neg hp, if_neg hp]
        exact ih

/-- The second loop of find_executable_for_key scans exactly the candidates
of all groups, in order. -/
theorem scanAllGroups_eq (env : Env) (groups : List (String × List String)) :
    scanAllGroups env groups = scanCandidates env (allCandidates groups) := by
  induction groups with
  | nil => rfl
  | cons g rest ih =>
    cases g with
    | mk plat_key candidates =>
      simp only [scanAllGroups, allCandidates]
      rw [scanCandidates_append]
      cases scanCandidates env candidates with
      | some r => rfl
      | none => exact ih

/-- C1: within a tick, a dispatch attempt is made only when the updated
stability counter has reached STABLE_FRAMES and the cooldown has expired; a
tick makes at most one dispatch attempt; the debounce state after a tick is
exactly the debounce transition of the observation, so a trigger never
resets the stability counter; and for a gesture still held (the observed
count equals the latched count) whose counter reaches the threshold at a
tick on which the cooldown has expired, a dispatch attempt does occur. -/
theorem C1_trigger_discipline (env : Env) (s : LoopState) (obs : Option Nat) (now : ℤ) :
    ((mainTick env s obs now).2 ≠ [] →
       ∃ fc, obs = some fc ∧
         STABLE_FRAMES ≤ (debounceStep (s.last_count, s.stable_counter) obs).2 ∧
         now - s.last_trigger_time ≥ COOLDOWN_SECONDS) ∧
    (mainTick env s obs now).2.length ≤ 1 ∧
    (∀ s', (mainTick env s obs now).1 = Except.ok s' →
       (s'.last_count, s'.stable_counter) =
         debounceStep (s.last_count, s.stable_counter) obs) ∧
    (∀ c, obs = some c → s.last_count = some c →
       STABLE_FRAMES ≤ s.stable_counter + 1 →
       now - s.last_trigger_time ≥ COOLDOWN_SECONDS →
       (mainTick env s obs now).2.length = 1) := by
  refine ⟨?_, ?_, ?_, ?_⟩
  · intro hne
    cases obs with
    | none => simp [mainTick] at hne
    | some fc =>
      refine ⟨fc, rfl, ?_⟩
      by_cases hcond : (debounceStep (s.last_count, s.stable_counter) (some fc)).2 ≥
          STABLE_FRAMES ∧ cooldownAllow s.last_trigger_time now = true
      · refine ⟨hcond.1, ?_⟩
        have := hcond.2
        simpa [cooldownAllow] using this
      · exfalso
        apply hne
        simp only [mainTick]
        rw [if_neg hcond]
  · cases obs with
    | none => simp [mainTick]
    | some fc =>
      simp only [mainTick]
      split
      · split <;> simp
      · simp
  · intro s' hok
    cases obs with
    | none =>
      simp only [mainTick, Except.ok.injEq] at hok
      rw [← hok]
      simp [debounceStep]
    | some fc =>
      simp only [mainTick] at hok
      split at hok
      · split at hok
        · exact absurd hok (by simp)
        · simp only [Except.ok.injEq] at hok
          rw [← hok]
      · simp only [Except.ok.injEq] at hok
        rw [← hok]
  · intro c hobs hlast hstable hcool
    subst hobs
    have hcond : (debounceStep (s.last_count, s.stable_counter) (some c)).2 ≥
        STABLE_FRAMES ∧ cooldownAllow s.last_trigger_time now = true := by
      constructor
      · simpa [debounceStep, hlast] using hstable
      · simp [cooldownAllow]
        exact hcool
    simp only [mainTick]
    rw [if_pos hcond]
    split <;> simp

/-- C1 witness: with a latched count of 2 held for a 6th tick and the
cooldown long expired, the tick makes exactly one dispatch attempt. -/
theorem C1_trigger_discipline_witness :
    (mainTick env0 { last_trigger_time := 0, stable_counter := 5, last_count := some 2 }
        (some 2) 10).2.length = 1 :=
  (C1_trigger_discipline env0
      { last_trigger_time := 0, stable_counter := 5, last_count := some 2 }
      (some 2) 10).2.2.2 2 rfl rfl (by decide) (by decide)

/-- C3: within a tick, last_trigger_time changes only when a dispatch
attempt returned acted = True, and then it becomes now; a noop mapping is
dispatched to False, an unmapped count (6 or above) defaults to the noop
mapping, and any dispatch attempt of a noop mapping reports False — so noop
dispatches, including those of unmapped counts, never advance
last_trigger_time. -/
theorem C3_last_trigger_time_discipline (env : Env) (s : LoopState) (obs : Option Nat)
    (now : ℤ) :
    (∀ s', (mainTick env s obs now).1 = Except.ok s' →
       s'.last_trigger_time ≠ s.last_trigger_time →
       s'.last_trigger_time = now ∧
         ∃ ev ∈ (mainTick env s obs now).2, ev.acted = Except.ok (some true)) ∧
    (∀ p, perform_mapped_action env ("noop", p) = Except.ok (some false)) ∧
    (∀ fc, 6 ≤ fc → mappingFor env.platform fc = ("noop", none)) ∧
    (∀ ev ∈ (mainTick env s obs now).2, ev.mapping.1 = "noop" →
       ev.acted = Except.ok (some false)) := by
  refine ⟨?_, fun p => perform_noop env ("noop", p) rfl, ?_, ?_⟩
  · intro s' hok hne
    cases obs with
    | none =>
      simp only [mainTick, Except.ok.injEq] at hok
      rw [← hok] at hne
      simp at hne
    | some fc =>
      by_cases hcond : (debounceStep (s.last_count, s.stable_counter) (some fc)).2 ≥
          STABLE_FRAMES ∧ cooldownAllow s.last_trigger_time now = true
      · cases hperf : perform_mapped_action env (mappingFor env.platform fc) with
        | error e =>
          simp only [mainTick] at hok
          rw [if_pos hcond, hperf] at hok
          exact absurd hok (by simp)
        | ok acted =>
          simp only [mainTick] at hok ⊢
          rw [if_pos hcond, hperf] at hok ⊢
          simp only [Except.ok.injEq] at hok
          rw [← hok] at hne
          simp only at hne
          by_cases hacted : acted = some true
          · subst hacted
            simp only [if_pos rfl] at hne
            exact ⟨by rw [← hok]; simp, ⟨_, List.mem_singleton.mpr rfl, rfl⟩⟩
          · rw [if_neg hacted] at hne
            exact absurd rfl hne
      · simp only [mainTick] at hok
        rw [if_neg hcond] at hok
        simp only [Except.ok.injEq] at hok
        rw [← hok] at hne
        simp at hne
  · intro fc hfc
    simp only [mappingFor, APP_MAPPING, List.lookup]
    have h0 : (fc == 0) = false := by simp; omega
    have h1 : (fc == 1) = false := by simp; omega
    have h2 : (fc == 2) = false := by simp; omega
    have h3 : (fc == 3) = false := by simp; omega
    have h4 : (fc == 4) = false := by simp; omega
    have h5 : (fc == 5) = false := by simp; omega
    rw [h0, h1, h2, h3, h4, h5]
    rfl
  · intro ev hev hnoop
    cases obs with
    | none => simp [mainTick] at hev
    | some fc =>
      simp only [mainTick] at hev
      split at hev
      · next hcond =>
        split at hev
        · next e hperform =>
          simp only [List.mem_singleton] at hev
          rw [hev] at hnoop
          simp only at hnoop
          rw [perform_noop env _ hnoop] at hperform
          exact absurd hperform (by simp)
        · next acted hperform =>
          simp only [List.mem_singleton] at hev
          rw [hev] at hnoop ⊢
          simp only at hnoop ⊢
          rw [perform_noop env _ hnoop] at hperform
          simp only [Except.ok.injEq] at hperform
          rw [hperform]
      · simp at hev

/-- C3 witness: on linux, the unmapped count 7 defaults to the noop
mapping. -/
theorem C3_last_trigger_time_discipline_witness :
    mappingFor env0.platform 7 = ("noop", none) :=
  (C3_last_trigger_time_discipline env0 initialLoopState none 0).2.2.1 7 (by decide)

/-- C4 counterexample: last_trigger_time is initialised to 0.0, not to
negative infinity, so before the first ever trigger the gate DENIES the
query time 1 — the claim that the gate allows every query time before the
first trigger is false. -/
theorem C4_counterexample :
    cooldownAllow INITIAL_LAST_TRIGGER_TIME 1 = false := by decide

/-- C4 (amended): after an acted dispatch recorded at time t0 the gate
allows a query time t exactly when t0 + COOLDOWN_SECONDS <= t (and denies
every earlier t); a tick whose dispatch attempt reports acted = True records
last_trigger_time = now; and before the first ever trigger (last_trigger_time
still its initial value 0.0) the gate allows exactly the query times at
least COOLDOWN_SECONDS — in particular every wall-clock value of time.time,
but not literally every query time. -/
theorem C4_cooldown_gate (t0 t : ℤ) (env : Env) (s : LoopState) (obs : Option Nat)
    (now : ℤ) :
    (cooldownAllow t0 t = true ↔ t0 + COOLDOWN_SECONDS ≤ t) ∧
    (t < t0 + COOLDOWN_SECONDS → cooldownAllow t0 t = false) ∧
    (∀ s', (mainTick env s obs now).1 = Except.ok s' →
       (∃ ev ∈ (mainTick env s obs now).2, ev.acted = Except.ok (some true)) →
       s'.last_trigger_time = now) ∧
    (COOLDOWN_SECONDS ≤ t → cooldownAllow INITIAL_LAST_TRIGGER_TIME t = true) := by
  have hallow : ∀ a b : ℤ, cooldownAllow a b = true ↔ a + COOLDOWN_SECONDS ≤ b := by
    intro a b
    simp only [cooldownAllow, ge_iff_le, decide_eq_true_eq]
    omega
  refine ⟨hallow t0 t, ?_, ?_, ?_⟩
  · intro hlt
    rw [← Bool.not_eq_true, hallow t0 t]
    omega
  · intro s' hok hev
    rcases hev with ⟨ev, hmem, hacted⟩
    cases obs with
    | none => simp [mainTick] at hmem
    | some fc =>
      by_cases hcond : (debounceStep (s.last_count, s.stable_counter) (some fc)).2 ≥
          STABLE_FRAMES ∧ cooldownAllow s.last_trigger_time now = true
      · cases hperf : perform_mapped_action env (mappingFor env.platform fc) with
        | error e =>
          simp only [mainTick] at hok
          rw [if_pos hcond, hperf] at hok
          exact absurd hok (by simp)
        | ok acted =>
          simp only [mainTick] at hok hmem
          rw [if_pos hcond, hperf] at hok hmem
          simp only [List.mem_singleton] at hmem
          rw [hmem] at hacted
          simp only [Except.ok.injEq] at hacted
          simp only [Except.ok.injEq] at hok
          rw [← hok, hacted]
          simp
      · simp only [mainTick] at hmem
        rw [if_neg hcond] at hmem
        simp at hmem
  · intro hle
    rw [hallow]
    simpa [INITIAL_LAST_TRIGGER_TIME] using hle

/-- C4 witness: a dispatch recorded at time 5 allows the query time 8. -/
theorem C4_cooldown_gate_witness : cooldownAllow 5 8 = true :=
  (C4_cooldown_gate 5 8 env0 initialLoopState none 0).1.mpr (by decide)

/-- C5 counterexample: webbrowser.open is called outside any try/except, so
when the browser capability faults, dispatching the open_url descriptor of
the configured mapping raises out of perform_mapped_action into the tick
loop instead of being converted into a false return. -/
theorem C5_counterexample :
    perform_mapped_action envBrowserFault ("open_url", some "https://www.youtube.com/") =
      Except.error () := rfl

/-- C5 (amended): faults of the process-launch capability are caught inside
the dispatch function, and faults of the speech capability are swallowed
inside speak, but a fault of the browser-open capability propagates:
dispatching raises if and only if the descriptor is open_url with a truthy
parameter and webbrowser.open faults. -/
theorem C5_fault_isolation (env : Env) (a : String) (p : Option String) :
    perform_mapped_action env (a, p) = Except.error () ↔
      a = "open_url" ∧ truthy p = true ∧ env.browserRaises = true := by
  simp only [perform_mapped_action]
  split
  · next h => simp [h]
  · split
    · next h hcond =>
      simp only [webbrowser_open]
      by_cases hb : env.browserRaises = true
      · rw [if_pos hb]
        simp [hcond.1, hcond.2, hb]
      · rw [if_neg hb]
        simp [hb]
    · split
      · next h1 h2 h3 =>
        constructor
        · intro herr
          split at herr
          · exact absurd herr (by simp)
          · next q =>
            rcases open_program_dispatch_ok env q with ⟨r, hr⟩
            rw [hr] at herr
            exact absurd herr (by simp)
        · intro ⟨ha, htr, _⟩
          exact absurd (And.intro ha htr) h2
      · split
        · next h1 h2 h3 h4 =>
          constructor
          · intro herr
            exact absurd herr (by simp)
          · intro ⟨ha, htr, _⟩
            exact absurd (And.intro ha htr) h2
        · next h1 h2 h3 h4 =>
          constructor
          · intro herr
            exact absurd herr (by simp)
          · intro ⟨ha, htr, _⟩
            exact absurd (And.intro ha htr) h2

/-- C5 witness: the characterization instantiated at a concrete faulting
browser environment. -/
theorem C5_fault_isolation_witness :
    perform_mapped_action envBrowserFault ("open_url", some "https://x") =
      Except.error () :=
  (C5_fault_isolation envBrowserFault "open_url" (some "https://x")).mpr
    ⟨rfl, by decide, rfl⟩

/-- C6: what the code actually does at the claim's failing input — a
say_text descriptor with a truthy parameter returns acted = True even when
the speech capability failed to initialise at startup (speak returns
immediately on VOICE_AVAILABLE = False, and perform_mapped_action returns
True unconditionally afterwards), contradicting the required acted = False
and thereby recording cooldown for an action with no observable effect. -/
theorem C6_say_text_ignores_voice_availability (env : Env) (p : Option String)
    (htr : truthy p = true) (_hv : env.voiceAvailable = false) :
    perform_mapped_action env ("say_text", p) = Except.ok (some true) := by
  simp [perform_mapped_action, htr]

/-- C6 witness: with pyttsx3 unavailable, dispatching say_text of "hello"
still returns True. -/
theorem C6_say_text_ignores_voice_availability_witness :
    perform_mapped_action envNoVoice ("say_text", some "hello") = Except.ok (some true) :=
  C6_say_text_ignores_voice_availability envNoVoice (some "hello") (by decide) rfl

/-- If launch_program_by_key reports True, find_executable_for_key resolved
some command and some launch call went through without raising. -/
theorem launch_program_by_key_true (env : Env) (key : String)
    (h : launch_program_by_key env key = some true) :
    (find_executable_for_key env key).isSome = true ∧
      ∃ argv, env.popenRaises argv = false := by
  simp only [launch_program_by_key] at h
  cases hfind : find_executable_for_key env key with
  | none => rw [hfind] at h; simp at h
  | some cmd =>
    rw [hfind] at h
    refine ⟨by simp, ?_⟩
    by_cases hp1 : env.popenRaises [cmd] = true
    · simp only [subprocess_Popen, if_pos hp1] at h
      by_cases hd : env.platform = "darwin"
      · rw [if_pos hd] at h
        by_cases hp2 : env.popenRaises ["open", "-a", key] = true
        · rw [if_pos hp2] at h
          simp at h
        · exact ⟨["open", "-a", key], by simpa using hp2⟩
      · rw [if_neg hd] at h
        by_cases hl : pyStartsWith env.platform "linux" = true
        · rw [if_pos hl] at h
          simp at h
        · rw [if_neg hl] at h
          simp at h
    · exact ⟨[cmd], by simpa using hp1⟩

/-- C7: for an open_program descriptor with a present parameter,
(1) the lookup-table resolution scans the candidates of the platform-matching
groups first and then those of all groups, each candidate tried as an
absolute existing path and then by PATH search;
(2) an existing absolute parameter is launched directly, the result decided
solely by whether that launch raises;
(3) otherwise a PATH hit for the literal parameter that launches cleanly
returns True;
(4) otherwise, with no PATH hit, the result is that of the lookup-table
launcher;
(5) a True return implies some resolution step found an executable and some
launch call did not raise;
(6) when no candidate resolves anywhere, the dispatch returns False;
(7) and the dispatcher routes open_program descriptors to exactly this
logic, a missing parameter returning False. -/
theorem C7_open_program_resolution (env : Env) (p exe : String) :
    (find_executable_for_key env p =
       scanCandidates env
         (platformCandidates env (lookupOf p) ++ allCandidates (lookupOf p))) ∧
    (env.isAbsExists p = true →
       open_program_dispatch env p = Except.ok (some (!env.popenRaises [p]))) ∧
    (env.isAbsExists p = false → env.which p = some exe →
       env.popenRaises [exe] = false →
       open_program_dispatch env p = Except.ok (some true)) ∧
    (env.isAbsExists p = false → env.which p = none →
       open_program_dispatch env p = Except.ok (launch_program_by_key env p)) ∧
    (open_program_dispatch env p = Except.ok (some true) →
       executableWasFound env p ∧ ∃ argv, env.popenRaises argv = false) ∧
    (env.isAbsExists p = false → env.which p = none →
       find_executable_for_key env p = none →
       open_program_dispatch env p = Except.ok (some false)) ∧
    (∀ q, perform_mapped_action env ("open_program", some q) =
       open_program_dispatch env q) ∧
    perform_mapped_action env ("open_program", none) = Except.ok (some false) := by
  refine ⟨?_, ?_, ?_, ?_, ?_, ?_, ?_, by simp [perform_mapped_action]⟩
  · rw [find_executable_for_key, scanPlatformGroups_eq, scanAllGroups_eq,
      scanCandidates_append]
  · intro habs
    simp only [open_program_dispatch, if_pos habs, subprocess_Popen]
    cases hp : env.popenRaises [p] <;> simp [hp]
  · intro habs hw hp
    simp only [open_program_dispatch, habs, hw]
    simp [subprocess_Popen, hp]
  · intro habs hw
    simp only [open_program_dispatch, habs, hw]
    simp
  · intro h
    simp only [open_program_dispatch] at h
    by_cases habs : env.isAbsExists p = true
    · rw [if_pos habs] at h
      refine ⟨Or.inl habs, ?_⟩
      by_cases hp : env.popenRaises [p] = true
      · simp [subprocess_Popen, hp] at h
      · exact ⟨[p], by simpa using hp⟩
    · rw [if_neg habs] at h
      cases hw : env.which p with
      | some e =>
        rw [hw] at h
        by_cases hp : env.popenRaises [e] = true
        · simp only [subprocess_Popen, if_pos hp, Except.ok.injEq] at h
          have := launch_program_by_key_true env p h
          exact ⟨Or.inr (Or.inr this.1), this.2⟩
        · exact ⟨Or.inr (Or.inl (by simp [hw])), ⟨[e], by simpa using hp⟩⟩
      | none =>
        rw [hw] at h
        simp only [Except.ok.injEq] at h
        have := launch_program_by_key_true env p h
        exact ⟨Or.inr (Or.inr this.1), this.2⟩
  · intro habs hw hfind
    simp only [open_program_dispatch, habs, hw, launch_program_by_key, hfind]
    simp
  · intro q
    simp [perform_mapped_action]

/-- C7 witness: on a linux machine with an empty PATH and no matching
files, a parameter absent from every lookup group resolves nowhere and the
dispatch reports False. -/
theorem C7_open_program_resolution_witness :
    open_program_dispatch env0 "zzz" = Except.ok (some false) :=
  (C7_open_program_resolution env0 "zzz" "x").2.2.2.2.2.1 rfl rfl rfl

/-- A fully well-formed landmark list passes the line-205 conversion
unchanged. -/
theorem landmarksToPairs_map_some (pts : List (ℚ × ℚ)) :
    landmarksToPairs (pts.map some) = Except.ok pts := by
  induction pts with
  | nil => rfl
  | cons a rest ih =>
    simp only [List.map_cons, landmarksToPairs, ih]

/-- The thumb bit is 0 or 1. -/
theorem thumbBit_zero_or_one (lm : List (ℚ × ℚ)) (label : Option String) :
    thumbBit lm label = 0 ∨ thumbBit lm label = 1 := by
  simp only [thumbBit]
  split
  · split
    · split <;> simp
    · split <;> simp
  · left; rfl

/-- Each non-thumb finger bit is 0 or 1. -/
theorem fingerBit_zero_or_one (lm : List (ℚ × ℚ)) (tipIdx : Nat) :
    fingerBit lm tipIdx = 0 ∨ fingerBit lm tipIdx = 1 := by
  simp only [fingerBit]
  split
  · split <;> simp
  · left; rfl

/-- C8: on a well-formed landmark list holding the thumb tip (index 4) and
the thumb IP joint (index 3), the thumb bit is 1 exactly when the tip x is
less than the joint x for a Right hand and for an unknown (None) handedness,
and exactly when the tip x is greater than the joint x for a Left hand; and
the first entry of the extracted finger vector is that thumb bit. -/
theorem C8_thumb_handedness (pts : List (ℚ × ℚ)) (label : Option String)
    (tip ip : ℚ × ℚ) (h4 : pts[4]? = some tip) (h3 : pts[3]? = some ip) :
    ((label = some "Right" ∨ label = none) →
       (thumbBit pts label = 1 ↔ tip.1 < ip.1)) ∧
    (label = some "Left" → (thumbBit pts label = 1 ↔ ip.1 < tip.1)) ∧
    (∀ n v, count_fingers_from_landmarks (pts.map some) label = Except.ok (n, v) →
       v[0]? = some (thumbBit pts label)) := by
  refine ⟨?_, ?_, ?_⟩
  · intro hlab
    have hgetD : label.getD "Right" = "Right" := by
      rcases hlab with h | h <;> rw [h] <;> rfl
    simp only [thumbBit, h4, h3, hgetD]
    rw [if_pos trivial]
    split <;> simp [*]
  · intro hlab
    rw [hlab]
    simp only [thumbBit, h4, h3, Option.getD_some]
    rw [if_neg (by decide)]
    split <;> simp_all
  · intro n v hok
    simp only [count_fingers_from_landmarks, landmarksToPairs_map_some,
      Except.ok.injEq, Prod.mk.injEq] at hok
    rw [← hok.2]
    rfl

/-- C8 witness: a Right-hand observation whose thumb tip x (3) is less than
its IP joint x (5) yields thumb bit 1. -/
theorem C8_thumb_handedness_witness :
    thumbBit [(0, 0), (0, 0), (0, 0), (5, 0), (3, 0)] (some "Right") = 1 :=
  ((C8_thumb_handedness [(0, 0), (0, 0), (0, 0), (5, 0), (3, 0)] (some "Right")
      (3, 0) (5, 0) rfl rfl).1 (Or.inl rfl)).mpr (by decide)

/-- C9 counterexample: a malformed landmark item raises at the line-205
conversion, which sits outside every try/except, so extraction is NOT total
on malformed landmark data: count_fingers_from_landmarks raises. -/
theorem C9_counterexample :
    count_fingers_from_landmarks [none] none = Except.error () := rfl

/-- C9 (amended): on every input whose landmark items are individually
well-formed (the line-205 conversion succeeds), extraction never raises,
whatever the length of the list and the label: it returns a 5-element 0/1
vector together with its sum, and a finger whose landmarks are missing
(index beyond the list) yields 0 while the remaining fingers are still
classified. -/
theorem C9_extraction_total (pts : List (ℚ × ℚ)) (label : Option String) :
    (∃ n v, count_fingers_from_landmarks (pts.map some) label = Except.ok (n, v) ∧
       v.length = 5 ∧ (∀ b ∈ v, b = 0 ∨ b = 1) ∧ n = v.sum) ∧
    (pts[4]? = none → thumbBit pts label = 0) ∧
    (∀ tipIdx, pts[tipIdx]? = none → fingerBit pts tipIdx = 0) := by
  refine ⟨?_, ?_, ?_⟩
  · refine ⟨(thumbBit pts label :: (FINGER_TIPS.drop 1).map (fingerBit pts)).sum,
      thumbBit pts label :: (FINGER_TIPS.drop 1).map (fingerBit pts), ?_, rfl, ?_, rfl⟩
    · simp only [count_fingers_from_landmarks, landmarksToPairs_map_some]
    · intro b hb
      simp only [FINGER_TIPS, List.drop, List.map, List.mem_cons,
        List.mem_singleton, List.not_mem_nil, or_false] at hb
      rcases hb with h | h | h | h | h
      all_goals rw [h]
      · exact thumbBit_zero_or_one pts label
      all_goals exact fingerBit_zero_or_one pts _
  · intro h4
    simp [thumbBit, h4]
  · intro tipIdx h
    simp [fingerBit, h]

/-- C9 witness: the empty landmark list (every index missing) still extracts,
and its thumb bit is 0. -/
theorem C9_extraction_total_witness :
    thumbBit [] none = 0 :=
  (C9_extraction_total [] none).2.1 rfl

/-- C10: an open_url descriptor with a falsy (None or empty) parameter, a
say_text descriptor with a falsy parameter, and a descriptor with an
unrecognized action all fall through to the warning branch and return
acted = False; and a tick none of whose dispatch attempts reported
acted = True leaves last_trigger_time unchanged, so such descriptors never
advance the cooldown. -/
theorem C10_falsy_descriptors (env : Env) (s : LoopState) (obs : Option Nat) (now : ℤ) :
    perform_mapped_action env ("open_url", none) = Except.ok (some false) ∧
    perform_mapped_action env ("open_url", some "") = Except.ok (some false) ∧
    perform_mapped_action env ("say_text", none) = Except.ok (some false) ∧
    perform_mapped_action env ("say_text", some "") = Except.ok (some false) ∧
    (∀ a p, a ≠ "noop" → a ≠ "open_url" → a ≠ "open_program" → a ≠ "say_text" →
       perform_mapped_action env (a, p) = Except.ok (some false)) ∧
    (∀ s', (mainTick env s obs now).1 = Except.ok s' →
       (∀ ev ∈ (mainTick env s obs now).2, ev.acted ≠ Except.ok (some true)) →
       s'.last_trigger_time = s.last_trigger_time) := by
  refine ⟨by simp [perform_mapped_action, truthy], by simp [perform_mapped_action, truthy],
    by simp [perform_mapped_action, truthy], by simp [perform_mapped_action, truthy],
    ?_, ?_⟩
  · intro a p h1 h2 h3 h4
    simp [perform_mapped_action, h1, h2, h3, h4]
  · intro s' hok hev
    cases obs with
    | none =>
      simp only [mainTick, Except.ok.injEq] at hok
      rw [← hok]
    | some fc =>
      by_cases hcond : (debounceStep (s.last_count, s.stable_counter) (some fc)).2 ≥
          STABLE_FRAMES ∧ cooldownAllow s.last_trigger_time now = true
      · cases hperf : perform_mapped_action env (mappingFor env.platform fc) with
        | error e =>
          simp only [mainTick] at hok
          rw [if_pos hcond, hperf] at hok
          exact absurd hok (by simp)
        | ok acted =>
          have hne : acted ≠ some true := by
            intro hacted
            apply hev ⟨fc, mappingFor env.platform fc, Except.ok acted⟩
            · simp only [mainTick]
              rw [if_pos hcond, hperf]
              simp
            · simp [hacted]
          simp only [mainTick] at hok
          rw [if_pos hcond, hperf] at hok
          simp only [Except.ok.injEq] at hok
          rw [← hok]
          simp [if_neg hne]
      · simp only [mainTick] at hok
        rw [if_neg hcond] at hok
        simp only [Except.ok.injEq] at hok
        rw [← hok]

/-- C10 witness: a descriptor with an unrecognized action kind returns
acted = False. -/
theorem C10_falsy_descriptors_witness :
    perform_mapped_action env0 ("frobnicate", some "x") = Except.ok (some false) :=
  (C10_falsy_descriptors env0 initialLoopState none 0).2.2.2.2.1 "frobnicate" (some "x")
    (by decide) (by decide) (by decide) (by decide)

end GestureLauncher
